import Mathlib

/-!
Verification development for the CPR-appropriation grid environment
(`gym_cpr_grid/cpr_grid.py`).  The Python classes `AgentAction`,
`AgentOrientation`, `AgentPosition`, `GridCell` and `CPRGridEnv` are given a
shallow embedding: numpy arrays become `Mat` (dimensions plus an entry
function), mutation becomes explicit state passing, and code paths that raise
Python exceptions return `Except String`.
-/

set_option maxRecDepth 10000

namespace CPRGrid

/-- `GridCell` IntEnum of the source: EMPTY = 0, RESOURCE = 1, AGENT = 2. -/
inductive GridCell where
  | EMPTY
  | RESOURCE
  | AGENT
deriving DecidableEq

instance : Inhabited GridCell := ⟨GridCell.EMPTY⟩

/-- Integer value of a grid cell, as in the Python IntEnum. -/
def GridCell.val : GridCell → Nat
  | .EMPTY => 0
  | .RESOURCE => 1
  | .AGENT => 2

/-- `AgentAction` IntEnum of the source (values 0..7 in declaration order). -/
inductive AgentAction where
  | STEP_FORWARD
  | STEP_BACKWARD
  | STEP_LEFT
  | STEP_RIGHT
  | ROTATE_LEFT
  | ROTATE_RIGHT
  | STAND_STILL
  | TAG
deriving DecidableEq

/-- `AgentOrientation` IntEnum of the source: UP = 0, RIGHT = 1, DOWN = 2,
LEFT = 3. -/
inductive AgentOrientation where
  | UP
  | RIGHT
  | DOWN
  | LEFT
deriving DecidableEq

instance : Inhabited AgentOrientation := ⟨AgentOrientation.UP⟩

/-- The enum value of an orientation. -/
def AgentOrientation.value : AgentOrientation → Nat
  | .UP => 0
  | .RIGHT => 1
  | .DOWN => 2
  | .LEFT => 3

/-- Inverse of `AgentOrientation.value` on 0..3 (the `AgentOrientation(...)`
constructor applied to an in-range value). -/
def AgentOrientation.ofValue : Nat → AgentOrientation
  | 0 => .UP
  | 1 => .RIGHT
  | 2 => .DOWN
  | _ => .LEFT

/-- `rotate_left`: `AgentOrientation((self.value - 1) % self.size())`.
Python's `%` is nonnegative, so `(v - 1) % 4 = (v + 3) % 4`. -/
def AgentOrientation.rotate_left (o : AgentOrientation) : AgentOrientation :=
  AgentOrientation.ofValue ((o.value + 3) % 4)

/-- `rotate_right`: `AgentOrientation((self.value + 1) % self.size())`. -/
def AgentOrientation.rotate_right (o : AgentOrientation) : AgentOrientation :=
  AgentOrientation.ofValue ((o.value + 1) % 4)

/-- `AgentPosition`: coordinates on the 2D grid (origin upper left, y grows
downward) plus an orientation. -/
structure AgentPosition where
  x : Int
  y : Int
  o : AgentOrientation
deriving DecidableEq

instance : Inhabited AgentPosition := ⟨⟨0, 0, .UP⟩⟩

/-- `AgentPosition.step_forward`. -/
def AgentPosition.step_forward (p : AgentPosition) : AgentPosition :=
  match p.o with
  | .UP => ⟨p.x, p.y - 1, p.o⟩
  | .RIGHT => ⟨p.x + 1, p.y, p.o⟩
  | .DOWN => ⟨p.x, p.y + 1, p.o⟩
  | .LEFT => ⟨p.x - 1, p.y, p.o⟩

/-- `AgentPosition.step_backward`. -/
def AgentPosition.step_backward (p : AgentPosition) : AgentPosition :=
  match p.o with
  | .UP => ⟨p.x, p.y + 1, p.o⟩
  | .RIGHT => ⟨p.x - 1, p.y, p.o⟩
  | .DOWN => ⟨p.x, p.y - 1, p.o⟩
  | .LEFT => ⟨p.x + 1, p.y, p.o⟩

/-- `AgentPosition.step_left`. -/
def AgentPosition.step_left (p : AgentPosition) : AgentPosition :=
  match p.o with
  | .UP => ⟨p.x - 1, p.y, p.o⟩
  | .RIGHT => ⟨p.x, p.y - 1, p.o⟩
  | .DOWN => ⟨p.x + 1, p.y, p.o⟩
  | .LEFT => ⟨p.x, p.y + 1, p.o⟩

/-- `AgentPosition.step_right`. -/
def AgentPosition.step_right (p : AgentPosition) : AgentPosition :=
  match p.o with
  | .UP => ⟨p.x + 1, p.y, p.o⟩
  | .RIGHT => ⟨p.x, p.y + 1, p.o⟩
  | .DOWN => ⟨p.x - 1, p.y, p.o⟩
  | .LEFT => ⟨p.x, p.y - 1, p.o⟩

/-- `AgentPosition.rotate_left`: same coordinates, orientation rotated. -/
def AgentPosition.rotate_left (p : AgentPosition) : AgentPosition :=
  ⟨p.x, p.y, p.o.rotate_left⟩

/-- `AgentPosition.rotate_right`. -/
def AgentPosition.rotate_right (p : AgentPosition) : AgentPosition :=
  ⟨p.x, p.y, p.o.rotate_right⟩

/-- `AgentPosition.stand_still` returns `self`. -/
def AgentPosition.stand_still (p : AgentPosition) : AgentPosition := p

/-- `AgentPosition.tag` returns `self`. -/
def AgentPosition.tag (p : AgentPosition) : AgentPosition := p

/-- The `getattr(self, action.name.lower())()` dispatch of
`get_new_position`, for an argument that really is an `AgentAction`. -/
def AgentPosition.applyAction (p : AgentPosition) : AgentAction → AgentPosition
  | .STEP_FORWARD => p.step_forward
  | .STEP_BACKWARD => p.step_backward
  | .STEP_LEFT => p.step_left
  | .STEP_RIGHT => p.step_right
  | .ROTATE_LEFT => p.rotate_left
  | .ROTATE_RIGHT => p.rotate_right
  | .STAND_STILL => p.stand_still
  | .TAG => p.tag

/-- An element of the `actions` list passed to `step`.  Python is dynamically
typed: the list may hold `AgentAction` members or any other value, and
`get_new_position` asserts that its argument is an `AgentAction`. -/
inductive PyAction where
  | valid (a : AgentAction)
  | invalid
deriving DecidableEq

/-- `AgentPosition.get_new_position`: asserts the argument is an
`AgentAction` (raising AssertionError otherwise), then dispatches on the
action name. -/
def AgentPosition.get_new_position (p : AgentPosition) :
    PyAction → Except String AgentPosition
  | .valid a => .ok (p.applyAction a)
  | .invalid => .error "AssertionError: The given action must be an instance of AgentAction"

/-- A 2D numpy-style array: row and column counts plus an entry function.
Index order matches the source, `entry i j` is row `i` (the y axis) and
column `j` (the x axis). -/
structure Mat (α : Type) where
  nrows : Nat
  ncols : Nat
  entry : Nat → Nat → α

/-- Build a `Mat` from a rectangular list of rows. -/
def Mat.ofLists [Inhabited α] (rows : List (List α)) : Mat α :=
  { nrows := rows.length
    ncols := (rows.headD []).length
    entry := fun i j => ((rows.getD i []).getD j default) }

/-- Render a `Mat` as a list of rows (used to compare concrete arrays). -/
def Mat.toLists (m : Mat α) : List (List α) :=
  (List.range m.nrows).map fun i => (List.range m.ncols).map fun j => m.entry i j

/-- Bounds-guarded read `grid[y, x]`.  Every grid read reachable in the
source is in range (out-of-range candidate poses are filtered before any
read); out-of-range reads return the default here, where Python would wrap
negative indices or raise. -/
def Mat.get [Inhabited α] (m : Mat α) (y x : Int) : α :=
  if 0 ≤ y ∧ y < (m.nrows : Int) ∧ 0 ≤ x ∧ x < (m.ncols : Int) then
    m.entry y.toNat x.toNat
  else default

/-- Write `grid[y, x] = v` at natural indices. -/
def Mat.setEntry (m : Mat α) (y x : Nat) (v : α) : Mat α :=
  { m with entry := fun i j => if i = y ∧ j = x then v else m.entry i j }

/-- Write `grid[y, x] = v` at integer coordinates.  Every grid write in the
source happens at in-range coordinates (moves are filtered by the
feasibility check, the respawn loop ranges over the grid). -/
def Mat.setCell (m : Mat α) (y x : Int) (v : α) : Mat α :=
  m.setEntry y.toNat x.toNat v

/-- `np.pad(m, pad_width=[(top, bot), (left, right)], constant_values = c)`. -/
def Mat.pad (m : Mat α) (top bot left right : Nat) (c : α) : Mat α :=
  { nrows := top + m.nrows + bot
    ncols := left + m.ncols + right
    entry := fun i j =>
      if top ≤ i ∧ i < top + m.nrows ∧ left ≤ j ∧ j < left + m.ncols then
        m.entry (i - top) (j - left)
      else c }

/-- `np.rot90`: one counter-clockwise quarter turn;
`(rot90 m).entry i j = m.entry j (m.ncols - 1 - i)`. -/
def Mat.rot90 (m : Mat α) : Mat α :=
  { nrows := m.ncols
    ncols := m.nrows
    entry := fun i j => m.entry j (m.ncols - 1 - i) }

/-- `np.rot90(m, k)`: `k` quarter turns. -/
def Mat.rot90k (m : Mat α) : Nat → Mat α
  | 0 => m
  | k + 1 => (m.rot90k k).rot90

/-- numpy basic slice `m[sy:ey, sx:ex]`.  The source only slices the padded
grid with nonnegative starts; ends beyond the array are clipped, exactly as
numpy clips them (this clipping is what makes a too-small pad produce a
too-small field of view instead of an indexing error). -/
def Mat.slice2 (m : Mat α) (sy ey sx ex : Int) : Mat α :=
  { nrows := (min ey (m.nrows : Int) - sy).toNat
    ncols := (min ex (m.ncols : Int) - sx).toNat
    entry := fun i j => m.entry (sy.toNat + i) (sx.toNat + j) }

/-- Number of entries satisfying `f` (used for `len(grid[grid == v])`). -/
def Mat.countP (m : Mat α) (f : α → Bool) : Nat :=
  ((List.range m.nrows).map fun i =>
    (List.range m.ncols).countP fun j => f (m.entry i j)).sum

/-- RGB color triple; matplotlib `colors.to_rgb` returns exact float
fractions of 255, represented here as rationals. -/
abbrev RGB := ℚ × ℚ × ℚ

/-- `colors.to_rgb("green")` = #008000. -/
def greenRGB : RGB := (0, 128 / 255, 0)

/-- `colors.to_rgb("red")` = #FF0000. -/
def redRGB : RGB := (1, 0, 0)

/-- `colors.to_rgb("blue")` = #0000FF (the FOV_OWN_AGENT_COLOR). -/
def blueRGB : RGB := (0, 0, 1)

/-- Numeric value of a grid cell as a rational (numpy promotes the integer
cell codes when mixed with float colors). -/
def cellQ (c : GridCell) : ℚ := (c.val : ℚ)

/-- `np.where(fov == t, color, fov)` on a 3-channel image: each channel is
compared with the scalar `t` and replaced by the corresponding channel of
the broadcast `color` where it matches. -/
def npWhereEq (m : Mat RGB) (t : ℚ) (c : RGB) : Mat RGB :=
  { nrows := m.nrows
    ncols := m.ncols
    entry := fun i j =>
      let v := m.entry i j
      (if v.1 = t then c.1 else v.1,
       if v.2.1 = t then c.2.1 else v.2.1,
       if v.2.2 = t then c.2.2 else v.2.2) }

/-- Per-cell oracle for the `np.random.binomial(1, p)` draw performed for
cell `(x, y)` with probability `p` during respawn. -/
abbrev RNG := Nat → Nat → ℚ → Bool

/-- Value held by the `observations` variable in `step`: Python initializes
it to `[None] * n_agents` (a list) and the loop then rebinds the whole
variable to the ndarray returned by `_get_observation`. -/
inductive ObsValue where
  | pyNoneList (n : Nat)
  | tensor (o : Mat RGB)

/-- True when the `observations` value is a bare ndarray (a single agent
observation) rather than the initial Python list. -/
def ObsValue.isTensor : ObsValue → Bool
  | .tensor _ => true
  | .pyNoneList _ => false

/-- `Except` success test. -/
def isOkE : Except String α → Bool
  | .ok _ => true
  | .error _ => false

/-- Error message of an `Except`, if any. -/
def errMsgE : Except String α → Option String
  | .error e => some e
  | .ok _ => none

/-- `CPRGridEnv.RESOURCE_COLLECTION_REWARD`. -/
def RESOURCE_COLLECTION_REWARD : Int := 1

/-- The mutable state and construction parameters of `CPRGridEnv`. -/
structure CPRGridEnv where
  n_agents : Nat
  grid_width : Nat
  grid_height : Nat
  fov_squares_front : Nat
  fov_squares_side : Nat
  tagging_ability : Bool
  beam_squares_front : Nat
  beam_squares_width : Nat
  ball_radius : Nat
  max_steps : Nat
  elapsed_steps : Nat
  agent_positions : List AgentPosition
  grid : Mat GridCell

/-- `_is_position_in_grid`. -/
def CPRGridEnv.is_position_in_grid (env : CPRGridEnv) (position : AgentPosition) : Bool :=
  if position.x < 0 ∨ position.x ≥ (env.grid_width : Int) then false
  else if position.y < 0 ∨ position.y ≥ (env.grid_height : Int) then false
  else true

/-- `_is_position_occupied`: the grid cell at the position holds AGENT. -/
def CPRGridEnv.is_position_occupied (env : CPRGridEnv) (position : AgentPosition) : Bool :=
  env.grid.get position.y position.x == GridCell.AGENT

/-- `_is_move_feasible`: in bounds and not occupied (Python `and`
short-circuits, so the occupancy read only happens in bounds). -/
def CPRGridEnv.is_move_feasible (env : CPRGridEnv) (position : AgentPosition) : Bool :=
  env.is_position_in_grid position && !env.is_position_occupied position

/-- `_has_resource`: the grid cell at the position holds RESOURCE. -/
def CPRGridEnv.has_resource (env : CPRGridEnv) (position : AgentPosition) : Bool :=
  env.grid.get position.y position.x == GridCell.RESOURCE

/-- `_is_resource_depleted`: `len(self.grid[self.grid == RESOURCE]) == 0`. -/
def CPRGridEnv.is_resource_depleted (env : CPRGridEnv) : Bool :=
  env.grid.countP (· == GridCell.RESOURCE) == 0

/-- Number of AGENT cells in the grid, `len(grid[grid == AGENT])`. -/
def CPRGridEnv.countAgents (env : CPRGridEnv) : Nat :=
  env.grid.countP (· == GridCell.AGENT)

/-- `_compute_new_agent_position`: assert the handle exists, compute the
candidate position, and fall back to the current position when the move is
infeasible. -/
def CPRGridEnv.compute_new_agent_position (env : CPRGridEnv)
    (agent_handle : Nat) (action : PyAction) : Except String AgentPosition :=
  if agent_handle < env.n_agents then
    match (env.agent_positions.getD agent_handle default).get_new_position action with
    | .error e => .error e
    | .ok new_position =>
      if env.is_move_feasible new_position = false then
        .ok (env.agent_positions.getD agent_handle default)
      else .ok new_position
  else .error "AssertionError: The given agent handle does not exist"

/-- `_move_agent`: reads `agent_positions[agent_handle]` as the current
position (which `step` has already overwritten with the new position), sets
that cell EMPTY, then sets the new cell AGENT. -/
def CPRGridEnv.move_agent (env : CPRGridEnv) (agent_handle : Nat)
    (new_position : AgentPosition) : CPRGridEnv :=
  let current_position := env.agent_positions.getD agent_handle default
  let grid1 := env.grid.setCell current_position.y current_position.x GridCell.EMPTY
  { env with grid := grid1.setCell new_position.y new_position.x GridCell.AGENT }

/-- One iteration of the move loop in `step`: compute the new position,
store it in `agent_positions`, assign the collection reward from the
pre-move grid, then move the agent on the grid. -/
def moveOne (env : CPRGridEnv) (agent_handle : Nat) (action : PyAction)
    (rewards : List Int) : Except String (CPRGridEnv × List Int) := do
  let new_agent_position ← env.compute_new_agent_position agent_handle action
  let env1 := { env with
    agent_positions := env.agent_positions.set agent_handle new_agent_position }
  let rewards1 :=
    if env1.has_resource new_agent_position then
      rewards.set agent_handle RESOURCE_COLLECTION_REWARD
    else rewards
  pure (env1.move_agent agent_handle new_agent_position, rewards1)

/-- The move loop of `step` over `enumerate(actions)`, threading the
environment state so that the mutations already applied when an exception
is raised remain visible. -/
def movesGo : CPRGridEnv → List Int → List (Nat × PyAction) →
    CPRGridEnv × Except String (List Int)
  | env, rewards, [] => (env, .ok rewards)
  | env, rewards, (agent_handle, action) :: rest =>
    match moveOne env agent_handle action rewards with
    | .error e => (env, .error e)
    | .ok (env1, rewards1) => movesGo env1 rewards1 rest

/-- The move phase of `step`: rewards start at
`[-RESOURCE_COLLECTION_REWARD] * n_agents` and the agents are processed in
index order. -/
def movesPhase (env : CPRGridEnv) (actions : List PyAction) :
    CPRGridEnv × Except String (List Int) :=
  movesGo env (List.replicate env.n_agents (-RESOURCE_COLLECTION_REWARD)) actions.enum

/-- `_pad_grid`: pad widths are clipped against `self.grid_width` and
`self.grid_height` (the dimensions of the unrotated grid, whatever the
dimensions of the `grid` argument), and the result is the Python triple
`(padded_grid, x_pad_width, y_pad_width)`. -/
def CPRGridEnv.pad_grid (env : CPRGridEnv) (grid : Mat GridCell) (x y : Int)
    (xl yl : Nat) : Mat GridCell × (Nat × Nat) × (Nat × Nat) :=
  let x_pad_width : Nat × Nat :=
    ((min (x - (xl : Int)) 0).natAbs,
     (max (x + (xl : Int) - (env.grid_width : Int) + 1) 0).toNat)
  let y_pad_width : Nat × Nat :=
    ((min (y - (yl : Int)) 0).natAbs,
     (max (y + (yl : Int) - (env.grid_height : Int) + 1) 0).toNat)
  (grid.pad y_pad_width.1 y_pad_width.2 x_pad_width.1 x_pad_width.2 GridCell.EMPTY,
   x_pad_width, y_pad_width)

/-- Python subscript `obj[sy:ey, sx:ex]` on a value that may or may not be
an ndarray.  An ndarray supports a pair-of-slices subscript; a Python tuple
(such as the triple returned by `_pad_grid`) does not, and CPython raises
TypeError.  `_extract_fov` unpacks the triple before slicing, while
`_extract_ball` subscripts the raw triple. -/
def pySliceIndex :
    Mat GridCell ⊕ (Mat GridCell × (Nat × Nat) × (Nat × Nat)) →
    Int → Int → Int → Int → Except String (Mat GridCell)
  | .inl m, sy, ey, sx, ex => .ok (m.slice2 sy ey sx ex)
  | .inr _, _, _, _, _ =>
    .error "TypeError: tuple indices must be integers or slices, not tuple"

/-- The disk-shaped kernel built in `_extract_ball`: `np.zeros` creates a
float64 array, and the cells with `xg**2 + yg**2 <= radius**2` are set to
1.0.  The values are exact, so they are represented as rationals; what
matters below is that the dtype is float. -/
def ballKernel (r : Nat) : Mat ℚ :=
  { nrows := 2 * r + 1
    ncols := 2 * r + 1
    entry := fun i j =>
      let yg : Int := (i : Int) - (r : Int)
      let xg : Int := (j : Int) - (r : Int)
      if xg ^ 2 + yg ^ 2 ≤ (r : Int) ^ 2 then 1 else 0 }

/-- Python subscript `ball[kernel]` where `kernel` has dtype float64: numpy
rejects float arrays as indices regardless of their values and raises
IndexError. -/
def floatMaskIndex (ball : Mat GridCell) (kernel : Mat ℚ) :
    Except String (List GridCell) :=
  .error "IndexError: arrays used as indices must be of integer (or boolean) type"

/-- `_extract_ball`: pads the grid, then subscripts the raw `_pad_grid`
result (a tuple) with a pair of slices, which raises TypeError before the
kernel mask is ever applied. -/
def CPRGridEnv.extract_ball (env : CPRGridEnv) (x y : Nat) :
    Except String (List GridCell) := do
  let padded_grid := env.pad_grid env.grid x y env.ball_radius env.ball_radius
  let sx : Int := (x : Int) - (env.ball_radius : Int)
  let ex : Int := (x : Int) + (env.ball_radius : Int) + 1
  let sy : Int := (y : Int) - (env.ball_radius : Int)
  let ey : Int := (y : Int) + (env.ball_radius : Int) + 1
  let ball ← pySliceIndex (Sum.inr padded_grid) sy ey sx ex
  let kernel := ballKernel env.ball_radius
  floatMaskIndex ball kernel

/-- `_respawn_probability`. -/
def respawn_probability (l : Nat) : ℚ :=
  if l = 1 ∨ l = 2 then 0.01
  else if l = 3 ∨ l = 4 then 0.05
  else if l > 4 then 0.1
  else 0

/-- `itertools.product(range(w), range(h))`: x-major order. -/
def productXY (w hgt : Nat) : List (Nat × Nat) :=
  (List.range w).flatMap fun x => (List.range hgt).map fun y => (x, y)

/-- The respawn loop body over the remaining cells, threading the grid
state.  For an EMPTY cell the `len(self._extract_ball(x, y))` call raises;
the subsequent probability lookup and Bernoulli draw are the source's dead
code. -/
def respawnGo (rng : RNG) : CPRGridEnv → List (Nat × Nat) →
    CPRGridEnv × Except String Unit
  | env, [] => (env, .ok ())
  | env, (x, y) :: rest =>
    if env.grid.get (y : Int) (x : Int) = GridCell.EMPTY then
      match env.extract_ball x y with
      | .error e => (env, .error e)
      | .ok ball =>
        let l := ball.length
        let p := respawn_probability l
        let env1 :=
          if rng x y p then
            { env with grid := env.grid.setCell (y : Int) (x : Int) GridCell.RESOURCE }
          else env
        respawnGo rng env1 rest
    else respawnGo rng env rest

/-- `_respawn_resources`. -/
def CPRGridEnv.respawn_resources (env : CPRGridEnv) (rng : RNG) :
    CPRGridEnv × Except String Unit :=
  respawnGo rng env (productXY env.grid_width env.grid_height)

/-- The coordinate-index grid of `_extract_fov`:
`np.array(list(product(range(H), range(W)))).reshape(H, W, 2)`, so entry
`(i, j)` is the pair `(i, j)`. -/
def coordGrid (h w : Nat) : Mat (Nat × Nat) :=
  { nrows := h, ncols := w, entry := fun i j => (i, j) }

/-- `np.argwhere((rotated_coords[:,:,0] == y) & (rotated_coords[:,:,1] == x))[0]`:
first row-major entry equal to `(y, x)`; `none` models the IndexError when
no entry matches. -/
def findEntry (m : Mat (Nat × Nat)) (y x : Int) : Option (Nat × Nat) :=
  (List.range m.nrows).findSome? fun i =>
    (List.range m.ncols).findSome? fun j =>
      if ((m.entry i j).1 : Int) = y ∧ ((m.entry i j).2 : Int) = x then
        some (i, j)
      else none

/-- `_extract_fov`: rotate the grid by the orientation-dependent quarter
turns, locate the agent in the rotated grid, pad, slice out the FOV window,
and assert its shape. -/
def CPRGridEnv.extract_fov (env : CPRGridEnv) (agent_handle : Nat) :
    Except String (Mat GridCell) := do
  let agent_position := env.agent_positions.getD agent_handle default
  let k : Nat :=
    if agent_position.o = .LEFT then 1
    else if agent_position.o = .UP then 2
    else if agent_position.o = .RIGHT then 3
    else 0
  let rotated_grid := env.grid.rot90k k
  let rotated_coords := (coordGrid env.grid_height env.grid_width).rot90k k
  match findEntry rotated_coords agent_position.y agent_position.x with
  | none => .error "IndexError: index 0 is out of bounds for axis 0 with size 0"
  | some (rotated_y, rotated_x) =>
    let (padded_grid, x_pad_width, y_pad_width) :=
      env.pad_grid rotated_grid (rotated_x : Int) (rotated_y : Int)
        env.fov_squares_side (env.fov_squares_front + k % 2)
    let sx : Int := (x_pad_width.1 : Int) + (rotated_x : Int) - (env.fov_squares_side : Int)
    let ex : Int := (x_pad_width.1 : Int) + (rotated_x : Int) + (env.fov_squares_side : Int) + 1
    let sy : Int := (y_pad_width.1 : Int) + (rotated_y : Int)
    let ey : Int := (y_pad_width.1 : Int) + (rotated_y : Int) + (env.fov_squares_front : Int)
    let fov := padded_grid.slice2 sy ey sx ex
    if fov.nrows = env.fov_squares_front ∧ fov.ncols = env.fov_squares_side * 2 + 1 then
      pure fov
    else
      .error "AssertionError: There was an error in FOV extraction, incorrect shape"

/-- `_get_observation`: stack the FOV to 3 channels, color RESOURCE cells
green and AGENT cells red via elementwise `np.where`, and overwrite the
front-row center cell with the own-agent color. -/
def CPRGridEnv.get_observation (env : CPRGridEnv) (agent_handle : Nat) :
    Except String (Mat RGB) := do
  let fov ← env.extract_fov agent_handle
  let fov3 : Mat RGB :=
    { nrows := fov.nrows
      ncols := fov.ncols
      entry := fun i j => let v := cellQ (fov.entry i j); (v, v, v) }
  let fov3 := npWhereEq fov3 (cellQ GridCell.RESOURCE) greenRGB
  let fov3 := npWhereEq fov3 (cellQ GridCell.AGENT) redRGB
  let fov3 := fov3.setEntry 0 env.fov_squares_side blueRGB
  pure fov3

/-- The observation loop of `step`: each iteration rebinds the whole
`observations` variable to the current agent's observation. -/
def obsGo (env : CPRGridEnv) : List Nat → ObsValue → Except String ObsValue
  | [], acc => .ok acc
  | agent_handle :: rest, _ => do
    let o ← env.get_observation agent_handle
    obsGo env rest (.tensor o)

/-- The observation phase of `step`, starting from `[None] * n_agents`. -/
def obsLoop (env : CPRGridEnv) : Except String ObsValue :=
  obsGo env (List.range env.n_agents) (.pyNoneList env.n_agents)

/-- `step`: length assertion, move loop, episode bookkeeping, observation
loop, resource respawn.  The first component of the result is the
environment state at the moment control leaves `step`, whether normally or
by an exception (the second component). -/
def CPRGridEnv.step (env : CPRGridEnv) (actions : List PyAction) (rng : RNG) :
    CPRGridEnv × Except String (ObsValue × List Int × List Bool) :=
  if actions.length = env.n_agents then
    match movesPhase env actions with
    | (env1, .error e) => (env1, .error e)
    | (env1, .ok rewards) =>
      let env2 := { env1 with elapsed_steps := env1.elapsed_steps + 1 }
      let dones : List Bool :=
        if env2.is_resource_depleted = true ∨ env2.elapsed_steps = env2.max_steps then
          List.replicate env2.n_agents true
        else
          List.replicate env2.n_agents false
      match obsLoop env2 with
      | .error e => (env2, .error e)
      | .ok observations =>
        match env2.respawn_resources rng with
        | (env3, .error e) => (env3, .error e)
        | (env3, .ok _) => (env3, .ok (observations, rewards, dones))
  else
    (env, .error "AssertionError: Actions should be given as a list with lenght equal to the number of agents")

/-! ### Concrete environments used in the theorems -/

/-- Degenerate random oracle (no respawn draw ever succeeds); every theorem
below that mentions it is independent of the oracle because the respawn
phase never reaches a draw. -/
def rng0 : RNG := fun _ _ _ => false

/-- The spec scenario: one agent on a 3×3 grid at (1, 1) facing UP, with a
single resource at (1, 0). -/
def env6c : CPRGridEnv :=
  { n_agents := 1, grid_width := 3, grid_height := 3,
    fov_squares_front := 1, fov_squares_side := 0,
    tagging_ability := true, beam_squares_front := 20, beam_squares_width := 5,
    ball_radius := 2, max_steps := 10, elapsed_steps := 0,
    agent_positions := [⟨1, 1, .UP⟩],
    grid := Mat.ofLists
      [[.EMPTY, .RESOURCE, .EMPTY],
       [.EMPTY, .AGENT, .EMPTY],
       [.EMPTY, .EMPTY, .EMPTY]] }

/-- One agent at (0, 0) facing DOWN on a fully occupied 2×2 grid (so a step
call completes without touching the broken respawn path). -/
def env1c : CPRGridEnv :=
  { n_agents := 1, grid_width := 2, grid_height := 2,
    fov_squares_front := 1, fov_squares_side := 0,
    tagging_ability := true, beam_squares_front := 20, beam_squares_width := 5,
    ball_radius := 2, max_steps := 10, elapsed_steps := 0,
    agent_positions := [⟨0, 0, .DOWN⟩],
    grid := Mat.ofLists [[.AGENT, .RESOURCE], [.RESOURCE, .RESOURCE]] }

/-- A non-square grid (3×1) with the agent facing LEFT: the rotated grid has
swapped dimensions, which `_pad_grid` ignores. -/
def env2c : CPRGridEnv :=
  { n_agents := 1, grid_width := 3, grid_height := 1,
    fov_squares_front := 1, fov_squares_side := 1,
    tagging_ability := true, beam_squares_front := 20, beam_squares_width := 5,
    ball_radius := 2, max_steps := 10, elapsed_steps := 0,
    agent_positions := [⟨0, 0, .LEFT⟩],
    grid := Mat.ofLists [[.AGENT, .EMPTY, .EMPTY]] }

/-- A 2×2 grid whose single EMPTY cell (1, 0) is exactly the cell the agent
steps onto, so the respawn loop finds no EMPTY cell afterwards. -/
def env4c : CPRGridEnv :=
  { n_agents := 1, grid_width := 2, grid_height := 2,
    fov_squares_front := 1, fov_squares_side := 0,
    tagging_ability := true, beam_squares_front := 20, beam_squares_width := 5,
    ball_radius := 2, max_steps := 10, elapsed_steps := 0,
    agent_positions := [⟨0, 0, .RIGHT⟩],
    grid := Mat.ofLists [[.AGENT, .EMPTY], [.RESOURCE, .RESOURCE]] }

/-- Two agents on a fully occupied 2×2 grid. -/
def env5c : CPRGridEnv :=
  { n_agents := 2, grid_width := 2, grid_height := 2,
    fov_squares_front := 1, fov_squares_side := 0,
    tagging_ability := true, beam_squares_front := 20, beam_squares_width := 5,
    ball_radius := 2, max_steps := 10, elapsed_steps := 0,
    agent_positions := [⟨0, 0, .UP⟩, ⟨1, 1, .UP⟩],
    grid := Mat.ofLists [[.AGENT, .RESOURCE], [.RESOURCE, .AGENT]] }

/-- The spec scenario: an agent at the grid corner (0, 0) facing LEFT, so
STEP_FORWARD targets x = -1. -/
def env7c : CPRGridEnv :=
  { n_agents := 1, grid_width := 2, grid_height := 2,
    fov_squares_front := 1, fov_squares_side := 0,
    tagging_ability := true, beam_squares_front := 20, beam_squares_width := 5,
    ball_radius := 2, max_steps := 10, elapsed_steps := 0,
    agent_positions := [⟨0, 0, .LEFT⟩],
    grid := Mat.ofLists [[.AGENT, .EMPTY], [.EMPTY, .EMPTY]] }

/-- A fully occupied 2×2 grid with `max_steps = 1`: the first step call is
the `max_steps`-th one. -/
def env8c : CPRGridEnv :=
  { n_agents := 1, grid_width := 2, grid_height := 2,
    fov_squares_front := 1, fov_squares_side := 0,
    tagging_ability := true, beam_squares_front := 20, beam_squares_width := 5,
    ball_radius := 2, max_steps := 1, elapsed_steps := 0,
    agent_positions := [⟨0, 0, .UP⟩],
    grid := Mat.ofLists [[.AGENT, .RESOURCE], [.RESOURCE, .RESOURCE]] }

/-- Two agents where the first takes a feasible move and the second entry of
the actions list is not an `AgentAction`. -/
def env9c : CPRGridEnv :=
  { n_agents := 2, grid_width := 2, grid_height := 2,
    fov_squares_front := 1, fov_squares_side := 0,
    tagging_ability := true, beam_squares_front := 20, beam_squares_width := 5,
    ball_radius := 2, max_steps := 10, elapsed_steps := 0,
    agent_positions := [⟨0, 0, .DOWN⟩, ⟨1, 1, .UP⟩],
    grid := Mat.ofLists [[.AGENT, .EMPTY], [.EMPTY, .AGENT]] }

/-! ### Helper lemmas -/

/-- `_extract_ball` always raises: the pair-of-slices subscript is applied
to the tuple returned by `_pad_grid`. -/
lemma extract_ball_err (env : CPRGridEnv) (x y : Nat) :
    env.extract_ball x y =
      .error "TypeError: tuple indices must be integers or slices, not tuple" := rfl

lemma mem_productXY {w hgt x y : Nat} :
    (x, y) ∈ productXY w hgt ↔ x < w ∧ y < hgt := by
  simp [productXY, List.mem_flatMap, List.mem_map, List.mem_range]

/-- If any remaining cell is EMPTY, the respawn loop raises the TypeError
from `_extract_ball` (and the state it had reached is returned). -/
lemma respawnGo_err (rng : RNG) :
    ∀ (cells : List (Nat × Nat)) (env : CPRGridEnv),
      (∃ c ∈ cells, env.grid.get (c.2 : Int) (c.1 : Int) = GridCell.EMPTY) →
      (respawnGo rng env cells).2 =
        .error "TypeError: tuple indices must be integers or slices, not tuple"
  | [], _, h => by simp at h
  | (x, y) :: rest, env, h => by
    by_cases hemp : env.grid.get (y : Int) (x : Int) = GridCell.EMPTY
    · simp only [respawnGo, if_pos hemp, extract_ball_err]
    · simp only [respawnGo, if_neg hemp]
      apply respawnGo_err rng rest env
      obtain ⟨c, hc, hce⟩ := h
      rcases List.mem_cons.mp hc with hc1 | hc2
      · subst hc1
        exact absurd hce hemp
      · exact ⟨c, hc2, hce⟩

/-- If the respawn loop completes, it never mutated the grid: a successful
pass means no cell was EMPTY (an EMPTY cell would have raised), so the
returned state is the input state. -/
lemma respawnGo_ok (rng : RNG) :
    ∀ (cells : List (Nat × Nat)) (env : CPRGridEnv),
      (respawnGo rng env cells).2 = .ok () → (respawnGo rng env cells).1 = env
  | [], _, _ => rfl
  | (x, y) :: rest, env, h => by
    by_cases hemp : env.grid.get (y : Int) (x : Int) = GridCell.EMPTY
    · simp only [respawnGo, if_pos hemp, extract_ball_err] at h
      exact Except.noConfusion h
    · simp only [respawnGo, if_neg hemp] at h ⊢
      exact respawnGo_ok rng rest env h

/-- A successful `moveOne` only touches `agent_positions` and `grid`. -/
lemma moveOne_fields {env : CPRGridEnv} {agent_handle : Nat} {action : PyAction}
    {rewards : List Int} {env1 : CPRGridEnv} {rew1 : List Int}
    (h : moveOne env agent_handle action rewards = .ok (env1, rew1)) :
    env1.elapsed_steps = env.elapsed_steps ∧ env1.n_agents = env.n_agents ∧
      env1.max_steps = env.max_steps := by
  cases hc : env.compute_new_agent_position agent_handle action with
  | error e => simp [moveOne, hc] at h
  | ok p =>
    unfold moveOne at h
    rw [hc] at h
    injection h with h1
    have hA := congrArg Prod.fst h1
    simp only at hA
    rw [← hA]
    simp [CPRGridEnv.move_agent]

/-- The move loop only touches `agent_positions` and `grid`, whether it
completes or raises. -/
lemma movesGo_fields :
    ∀ (pairs : List (Nat × PyAction)) (env : CPRGridEnv) (rewards : List Int),
      (movesGo env rewards pairs).1.elapsed_steps = env.elapsed_steps ∧
      (movesGo env rewards pairs).1.n_agents = env.n_agents ∧
      (movesGo env rewards pairs).1.max_steps = env.max_steps
  | [], _, _ => ⟨rfl, rfl, rfl⟩
  | (agent_handle, action) :: rest, env, rewards => by
    cases hmo : moveOne env agent_handle action rewards with
    | error e => simp [movesGo, hmo]
    | ok pr =>
      obtain ⟨env1, rew1⟩ := pr
      have hf := moveOne_fields hmo
      have hrec := movesGo_fields rest env1 rew1
      simp only [movesGo, hmo]
      exact ⟨hrec.1.trans hf.1, hrec.2.1.trans hf.2.1, hrec.2.2.trans hf.2.2⟩

/-- For a handle below `n_agents` and a genuine `AgentAction`,
`_compute_new_agent_position` succeeds. -/
lemma compute_valid_ok (env : CPRGridEnv) (agent_handle : Nat) (a : AgentAction)
    (h : agent_handle < env.n_agents) :
    ∃ p, env.compute_new_agent_position agent_handle (.valid a) = .ok p := by
  unfold CPRGridEnv.compute_new_agent_position
  rw [if_pos h]
  simp only [AgentPosition.get_new_position]
  split <;> exact ⟨_, rfl⟩

/-- For a handle below `n_agents` and a genuine `AgentAction`, `moveOne`
succeeds and preserves `n_agents`. -/
lemma moveOne_valid_ok (env : CPRGridEnv) (agent_handle : Nat) (a : AgentAction)
    (rewards : List Int) (h : agent_handle < env.n_agents) :
    ∃ env1 rew1, moveOne env agent_handle (PyAction.valid a) rewards = .ok (env1, rew1) ∧
      env1.n_agents = env.n_agents := by
  obtain ⟨p, hp⟩ := compute_valid_ok env agent_handle a h
  refine ⟨CPRGridEnv.move_agent
      { env with agent_positions := env.agent_positions.set agent_handle p }
      agent_handle p,
    (if ({ env with agent_positions := env.agent_positions.set agent_handle p } :
        CPRGridEnv).has_resource p then
      rewards.set agent_handle RESOURCE_COLLECTION_REWARD
    else rewards), ?_, ?_⟩
  · unfold moveOne
    rw [hp]
    rfl
  · simp [CPRGridEnv.move_agent]

/-- If the remaining actions contain a value that is not an `AgentAction`,
the move loop raises the assertion from `get_new_position` (the agents
before it having already been processed). -/
lemma movesGo_invalid :
    ∀ (actions : List PyAction) (idx : Nat) (env : CPRGridEnv) (rewards : List Int),
      idx + actions.length ≤ env.n_agents → PyAction.invalid ∈ actions →
      (movesGo env rewards (actions.enumFrom idx)).2 =
        .error "AssertionError: The given action must be an instance of AgentAction"
  | [], _, _, _, _, hmem => by simp at hmem
  | action :: rest, idx, env, rewards, hle, hmem => by
    have hidx : idx < env.n_agents := by
      simp only [List.length_cons] at hle
      omega
    cases action with
    | invalid =>
      have hmo : moveOne env idx .invalid rewards =
          .error "AssertionError: The given action must be an instance of AgentAction" := by
        simp [moveOne, CPRGridEnv.compute_new_agent_position, if_pos hidx,
          AgentPosition.get_new_position]
      simp [List.enumFrom, movesGo, hmo]
    | valid a =>
      obtain ⟨env1, rew1, hmo, hn⟩ := moveOne_valid_ok env idx a rewards hidx
      have hmem2 : PyAction.invalid ∈ rest := by
        rcases List.mem_cons.mp hmem with h | h
        · exact absurd h (by simp)
        · exact h
      have hle2 : idx + 1 + rest.length ≤ env1.n_agents := by
        rw [hn]
        simp only [List.length_cons] at hle
        omega
      simp only [List.enumFrom, movesGo, hmo]
      exact movesGo_invalid rest (idx + 1) env1 rew1 hle2 hmem2

/-- Equation for `step` when the move loop raises. -/
lemma step_moves_error (env : CPRGridEnv) (actions : List PyAction) (rng : RNG)
    (env1 : CPRGridEnv) (e : String)
    (hlen : actions.length = env.n_agents)
    (hmv : movesPhase env actions = (env1, .error e)) :
    env.step actions rng = (env1, .error e) := by
  unfold CPRGridEnv.step
  rw [if_pos hlen, hmv]

/-- Equation for `step` when the observation loop raises. -/
lemma step_obs_error (env : CPRGridEnv) (actions : List PyAction) (rng : RNG)
    (env1 : CPRGridEnv) (rewards : List Int) (e : String)
    (hlen : actions.length = env.n_agents)
    (hmv : movesPhase env actions = (env1, .ok rewards))
    (hob : obsLoop { env1 with elapsed_steps := env1.elapsed_steps + 1 } = .error e) :
    env.step actions rng =
      ({ env1 with elapsed_steps := env1.elapsed_steps + 1 }, .error e) := by
  unfold CPRGridEnv.step
  rw [if_pos hlen, hmv]
  show (match obsLoop { env1 with elapsed_steps := env1.elapsed_steps + 1 } with
    | Except.error e => ({ env1 with elapsed_steps := env1.elapsed_steps + 1 }, Except.error e)
    | Except.ok observations =>
      match CPRGridEnv.respawn_resources
          { env1 with elapsed_steps := env1.elapsed_steps + 1 } rng with
      | (env3, Except.error e) => (env3, Except.error e)
      | (env3, Except.ok _) => (env3, Except.ok (observations, rewards,
          if ({ env1 with elapsed_steps := env1.elapsed_steps + 1 } :
              CPRGridEnv).is_resource_depleted = true ∨
            env1.elapsed_steps + 1 = env1.max_steps then
            List.replicate env1.n_agents true
          else List.replicate env1.n_agents false))) = _
  rw [hob]

/-- Equation for `step` when the respawn phase raises. -/
lemma step_respawn_error (env : CPRGridEnv) (actions : List PyAction) (rng : RNG)
    (env1 : CPRGridEnv) (rewards : List Int) (v : ObsValue) (env3 : CPRGridEnv) (e : String)
    (hlen : actions.length = env.n_agents)
    (hmv : movesPhase env actions = (env1, .ok rewards))
    (hob : obsLoop { env1 with elapsed_steps := env1.elapsed_steps + 1 } = .ok v)
    (hr : CPRGridEnv.respawn_resources
        { env1 with elapsed_steps := env1.elapsed_steps + 1 } rng = (env3, .error e)) :
    env.step actions rng = (env3, .error e) := by
  unfold CPRGridEnv.step
  rw [if_pos hlen, hmv]
  show (match obsLoop { env1 with elapsed_steps := env1.elapsed_steps + 1 } with
    | Except.error e => ({ env1 with elapsed_steps := env1.elapsed_steps + 1 }, Except.error e)
    | Except.ok observations =>
      match CPRGridEnv.respawn_resources
          { env1 with elapsed_steps := env1.elapsed_steps + 1 } rng with
      | (env3, Except.error e) => (env3, Except.error e)
      | (env3, Except.ok _) => (env3, Except.ok (observations, rewards,
          if ({ env1 with elapsed_steps := env1.elapsed_steps + 1 } :
              CPRGridEnv).is_resource_depleted = true ∨
            env1.elapsed_steps + 1 = env1.max_steps then
            List.replicate env1.n_agents true
          else List.replicate env1.n_agents false))) = _
  rw [hob, hr]

/-- Equation for a fully successful `step`. -/
lemma step_ok_components (env : CPRGridEnv) (actions : List PyAction) (rng : RNG)
    (env1 : CPRGridEnv) (rewards : List Int) (v : ObsValue) (env3 : CPRGridEnv)
    (hlen : actions.length = env.n_agents)
    (hmv : movesPhase env actions = (env1, .ok rewards))
    (hob : obsLoop { env1 with elapsed_steps := env1.elapsed_steps + 1 } = .ok v)
    (hr : CPRGridEnv.respawn_resources
        { env1 with elapsed_steps := env1.elapsed_steps + 1 } rng = (env3, .ok ())) :
    env.step actions rng = (env3, .ok (v, rewards,
      if ({ env1 with elapsed_steps := env1.elapsed_steps + 1 } :
          CPRGridEnv).is_resource_depleted = true ∨
        env1.elapsed_steps + 1 = env1.max_steps then
        List.replicate env1.n_agents true
      else List.replicate env1.n_agents false)) := by
  unfold CPRGridEnv.step
  rw [if_pos hlen, hmv]
  show (match obsLoop { env1 with elapsed_steps := env1.elapsed_steps + 1 } with
    | Except.error e => ({ env1 with elapsed_steps := env1.elapsed_steps + 1 }, Except.error e)
    | Except.ok observations =>
      match CPRGridEnv.respawn_resources
          { env1 with elapsed_steps := env1.elapsed_steps + 1 } rng with
      | (env3, Except.error e) => (env3, Except.error e)
      | (env3, Except.ok _) => (env3, Except.ok (observations, rewards,
          if ({ env1 with elapsed_steps := env1.elapsed_steps + 1 } :
              CPRGridEnv).is_resource_depleted = true ∨
            env1.elapsed_steps + 1 = env1.max_steps then
            List.replicate env1.n_agents true
          else List.replicate env1.n_agents false))) = _
  rw [hob, hr]

/-! ### Claim theorems -/

/-- C1: the claim says the number of AGENT cells always equals `n_agents`.
The code violates it: `step` overwrites `agent_positions[agent_handle]`
before calling `_move_agent`, so `_move_agent` reads the new position as the
"previous" one and never clears the cell the agent left.  Here a single
agent on a fully occupied 2×2 grid takes one successful feasible step
(`step` returns normally) and the grid ends up with 2 AGENT cells. -/
theorem C1_agent_count_bug :
    env1c.n_agents = 1 ∧ env1c.countAgents = 1 ∧
    isOkE (env1c.step [.valid .STEP_FORWARD] rng0).2 = true ∧
    (env1c.step [.valid .STEP_FORWARD] rng0).1.countAgents = 2 :=
  ⟨rfl, by decide, by decide, by decide⟩

/-- C2: the claim says the FOV shape is always
`(fov_squares_front, 2*fov_squares_side+1)` and the shape assertion never
fires.  On a non-square grid with the agent facing LEFT, `_pad_grid` clips
the pad widths against the unrotated `grid_width`/`grid_height` while the
rotated grid has swapped dimensions, the slice is clipped short, and the
assertion raises. -/
theorem C2_fov_assert_fires :
    errMsgE (env2c.extract_fov 0) =
      some "AssertionError: There was an error in FOV extraction, incorrect shape" := by
  rfl

/-- C3: the claimed respawn-probability table is exactly the one in
`_respawn_probability`, but the neighbour count `L` is never computed: for
any EMPTY cell, `_respawn_resources` calls `_extract_ball`, which subscripts
the tuple returned by `_pad_grid` with a pair of slices and raises TypeError
(here evaluated on a concrete grid with an EMPTY cell at (1, 0)). -/
theorem C3_respawn_crash_and_table :
    (env4c.respawn_resources rng0).2 =
      .error "TypeError: tuple indices must be integers or slices, not tuple" ∧
    respawn_probability 0 = 0 ∧
    respawn_probability 1 = 1 / 100 ∧ respawn_probability 2 = 1 / 100 ∧
    respawn_probability 3 = 1 / 20 ∧ respawn_probability 4 = 1 / 20 ∧
    respawn_probability 5 = 1 / 10 ∧ respawn_probability 100 = 1 / 10 := by
  refine ⟨rfl, ?_, ?_, ?_, ?_, ?_, ?_, ?_⟩ <;> norm_num [respawn_probability]

/-- C4 counterexample: the claim quantifies over every state whose grid has
an EMPTY cell, but a step can fill the only EMPTY cell (the agent moves
onto it) and then the respawn loop finds no EMPTY cell and `step` returns
normally. -/
theorem C4_counterexample :
    env4c.grid.get 0 1 = GridCell.EMPTY ∧
    isOkE (env4c.step [.valid .STEP_FORWARD] rng0).2 = true :=
  ⟨by decide, by decide⟩

/-- C5: the claim says a successful `step` returns a list of `n_agents`
observations.  The code rebinds the whole `observations` variable each
iteration (`observations = self._get_observation(agent_handle)`), so a
successful call returns the single last agent's tensor, not a list: here
`n_agents = 2` and the first component of the result is a bare tensor. -/
theorem C5_observations_overwritten :
    env5c.n_agents = 2 ∧
    (match (env5c.step [.valid .STAND_STILL, .valid .STAND_STILL] rng0).2 with
      | .ok (v, r, d) => some (v.isTensor, r, d)
      | .error _ => none) = some (true, [-1, -1], [false, false]) :=
  ⟨rfl, by decide⟩

/-- C9 counterexample: with a genuine feasible action for agent 0 followed
by a non-`AgentAction` value, the call raises the assertion from
`get_new_position`, but agent 0's move has already been applied: the
position list of the state at the moment the exception leaves `step`
differs from the pre-call one, so the call was partially applied. -/
theorem C9_counterexample :
    (env9c.step [.valid .STEP_FORWARD, .invalid] rng0).2 =
      .error "AssertionError: The given action must be an instance of AgentAction" ∧
    (env9c.step [.valid .STEP_FORWARD, .invalid] rng0).1.agent_positions =
      [⟨0, 1, .DOWN⟩, ⟨1, 1, .UP⟩] ∧
    env9c.agent_positions = [⟨0, 0, .DOWN⟩, ⟨1, 1, .UP⟩] :=
  ⟨rfl, by decide, by decide⟩

/-- C4 (amended): whenever the moves and observation phases of a `step`
call complete and the grid still contains an EMPTY cell when the respawn
phase begins, `_extract_ball` subscripts the `_pad_grid` tuple with a pair
of slices, the TypeError propagates out of `_respawn_resources`, and `step`
raises instead of returning a result. -/
theorem C4_respawn_error (env : CPRGridEnv) (actions : List PyAction) (rng : RNG)
    (env1 : CPRGridEnv) (rewards : List Int) (x y : Nat)
    (hlen : actions.length = env.n_agents)
    (hmoves : movesPhase env actions = (env1, Except.ok rewards))
    (hx : x < env1.grid_width) (hy : y < env1.grid_height)
    (hemp : env1.grid.get (y : Int) (x : Int) = GridCell.EMPTY)
    (hobs : isOkE (obsLoop { env1 with elapsed_steps := env1.elapsed_steps + 1 }) = true) :
    (env.step actions rng).2 =
      .error "TypeError: tuple indices must be integers or slices, not tuple" := by
  have hresp : (CPRGridEnv.respawn_resources
      { env1 with elapsed_steps := env1.elapsed_steps + 1 } rng).2 =
      .error "TypeError: tuple indices must be integers or slices, not tuple" := by
    apply respawnGo_err
    exact ⟨(x, y), mem_productXY.mpr ⟨hx, hy⟩, hemp⟩
  rcases hob : obsLoop { env1 with elapsed_steps := env1.elapsed_steps + 1 } with e | v
  · rw [hob] at hobs
    simp [isOkE] at hobs
  · rcases hr : CPRGridEnv.respawn_resources
        { env1 with elapsed_steps := env1.elapsed_steps + 1 } rng with ⟨env3, res3⟩
    rw [hr] at hresp
    simp only at hresp
    cases res3 with
    | error e =>
      rw [step_respawn_error env actions rng env1 rewards v env3 e hlen hmoves hob hr]
      simpa using hresp
    | ok u => exact absurd hresp (by simp)

/-- C6: the per-agent reward rule of the move loop: when agent
`agent_handle` resolves to position `p`, its reward entry is set to the
collection reward exactly when the grid read *before* the agent's move is
applied shows RESOURCE at `p`, and is left at its previous value (the -1
the loop starts from) otherwise.  In particular, for the spec scenario (one
agent on a 3×3 grid at (1, 1) facing UP, a resource at (1, 0)),
STEP_FORWARD yields pose (1, 0, UP), the reward list [1], and cell (1, 0)
becomes AGENT. -/
theorem C6_reward_rule :
    (∀ (env : CPRGridEnv) (agent_handle : Nat) (action : PyAction)
        (rewards : List Int) (p : AgentPosition) (env1 : CPRGridEnv) (rew1 : List Int),
        env.compute_new_agent_position agent_handle action = .ok p →
        moveOne env agent_handle action rewards = .ok (env1, rew1) →
        rew1 = if env.grid.get p.y p.x = GridCell.RESOURCE then
            rewards.set agent_handle RESOURCE_COLLECTION_REWARD
          else rewards) ∧
    (movesPhase env6c [.valid .STEP_FORWARD]).2 = .ok [1] ∧
    (movesPhase env6c [.valid .STEP_FORWARD]).1.agent_positions = [⟨1, 0, .UP⟩] ∧
    (movesPhase env6c [.valid .STEP_FORWARD]).1.grid.get 0 1 = GridCell.AGENT := by
  refine ⟨?_, by rfl, by decide, by decide⟩
  intro env agent_handle action rewards p env1 rew1 hc hm
  unfold moveOne at hm
  rw [hc] at hm
  injection hm with h1
  have hB := congrArg Prod.snd h1
  simp only at hB
  rw [← hB]
  by_cases hres : env.grid.get p.y p.x = GridCell.RESOURCE <;>
    simp [CPRGridEnv.has_resource, hres]

/-- C7: an infeasible candidate move (out of bounds or onto an AGENT cell)
makes `_compute_new_agent_position` return the agent's current position
without raising; in the spec scenario (agent at (0, 0) facing LEFT taking
STEP_FORWARD toward x = -1) the move loop leaves the pose unchanged and the
reward at -1. -/
theorem C7_infeasible_stand_still :
    (∀ (env : CPRGridEnv) (agent_handle : Nat) (a : AgentAction),
        agent_handle < env.n_agents →
        env.is_move_feasible
          ((env.agent_positions.getD agent_handle default).applyAction a) = false →
        env.compute_new_agent_position agent_handle (.valid a) =
          .ok (env.agent_positions.getD agent_handle default)) ∧
    (movesPhase env7c [.valid .STEP_FORWARD]).2 = .ok [-1] ∧
    (movesPhase env7c [.valid .STEP_FORWARD]).1.agent_positions = [⟨0, 0, .LEFT⟩] := by
  refine ⟨?_, by rfl, by decide⟩
  intro env agent_handle a h hf
  unfold CPRGridEnv.compute_new_agent_position
  rw [if_pos h]
  simp only [AgentPosition.get_new_position]
  rw [if_pos hf]

/-- C8: when a `step` call returns, the state's elapsed counter is the old
one plus 1, and the returned dones list is all-True exactly when the
post-move grid has no RESOURCE cell or the new elapsed counter equals
`max_steps` (all-False otherwise); so after a reset (elapsed 0), the
`max_steps`-th returning call reports all agents done. -/
theorem C8_termination (env : CPRGridEnv) (actions : List PyAction) (rng : RNG)
    (obsv : ObsValue) (rew : List Int) (dones : List Bool)
    (hstep : (env.step actions rng).2 = .ok (obsv, rew, dones)) :
    (env.step actions rng).1.elapsed_steps = env.elapsed_steps + 1 ∧
    dones = (if (env.step actions rng).1.is_resource_depleted = true ∨
                (env.step actions rng).1.elapsed_steps = env.max_steps then
        List.replicate env.n_agents true
      else List.replicate env.n_agents false) := by
  by_cases hlen : actions.length = env.n_agents
  case neg =>
    simp [CPRGridEnv.step, if_neg hlen] at hstep
  rcases hmv : movesPhase env actions with ⟨env1, res1⟩
  cases res1 with
  | error e =>
    rw [step_moves_error env actions rng env1 e hlen hmv] at hstep
    exact absurd hstep (by simp)
  | ok rewards =>
    rcases hob : obsLoop { env1 with elapsed_steps := env1.elapsed_steps + 1 } with e | v
    · rw [step_obs_error env actions rng env1 rewards e hlen hmv hob] at hstep
      exact absurd hstep (by simp)
    · rcases hr : CPRGridEnv.respawn_resources
          { env1 with elapsed_steps := env1.elapsed_steps + 1 } rng with ⟨env3, res3⟩
      cases res3 with
      | error e =>
        rw [step_respawn_error env actions rng env1 rewards v env3 e hlen hmv hob hr] at hstep
        exact absurd hstep (by simp)
      | ok u =>
        cases u
        have hEq := step_ok_components env actions rng env1 rewards v env3 hlen hmv hob hr
        rw [hEq] at hstep ⊢
        simp only [Except.ok.injEq, Prod.mk.injEq] at hstep
        obtain ⟨-, -, hdones⟩ := hstep
        have hst : env3 = { env1 with elapsed_steps := env1.elapsed_steps + 1 } := by
          have h2 : (CPRGridEnv.respawn_resources
              { env1 with elapsed_steps := env1.elapsed_steps + 1 } rng).2 = .ok () := by
            rw [hr]
          have h1 : (CPRGridEnv.respawn_resources
              { env1 with elapsed_steps := env1.elapsed_steps + 1 } rng).1 =
              { env1 with elapsed_steps := env1.elapsed_steps + 1 } :=
            respawnGo_ok rng _ _ h2
          rw [hr] at h1
          exact h1
        have hmv2 : movesGo env (List.replicate env.n_agents (-RESOURCE_COLLECTION_REWARD))
            actions.enum = (env1, Except.ok rewards) := hmv
        have hfields := movesGo_fields actions.enum env
          (List.replicate env.n_agents (-RESOURCE_COLLECTION_REWARD))
        rw [hmv2] at hfields
        simp only at hfields
        subst hst
        refine ⟨by simp [hfields.1], ?_⟩
        rw [← hdones]
        simp [CPRGridEnv.is_resource_depleted, hfields.1, hfields.2.1, hfields.2.2]

/-- C8 counterexample: with `max_steps = 1`, the first call to `step` after
a reset is the `max_steps`-th one, yet it raises the respawn TypeError
instead of returning `[True] * n_agents` (or anything at all), because the
grid still has EMPTY cells after the move. -/
theorem C8_counterexample :
    ({ env6c with max_steps := 1 } : CPRGridEnv).max_steps = 1 ∧
    ({ env6c with max_steps := 1 } : CPRGridEnv).elapsed_steps = 0 ∧
    errMsgE (({ env6c with max_steps := 1 } : CPRGridEnv).step
        [.valid .STEP_FORWARD] rng0).2 =
      some "TypeError: tuple indices must be integers or slices, not tuple" :=
  ⟨rfl, rfl, by decide⟩

/-- C9 (amended): a wrong-length actions list is rejected up front with the
environment state unchanged; an actions list containing a value that is not
an `AgentAction` makes `step` raise the `get_new_position` assertion when
that element is reached (never silently truncated or padded), though moves
of earlier-indexed agents remain applied. -/
theorem C9_amended :
    (∀ (env : CPRGridEnv) (actions : List PyAction) (rng : RNG),
        actions.length ≠ env.n_agents →
        env.step actions rng = (env,
          .error "AssertionError: Actions should be given as a list with lenght equal to the number of agents")) ∧
    (∀ (env : CPRGridEnv) (actions : List PyAction) (rng : RNG),
        actions.length = env.n_agents → PyAction.invalid ∈ actions →
        (env.step actions rng).2 =
          .error "AssertionError: The given action must be an instance of AgentAction") := by
  constructor
  · intro env actions rng hne
    simp [CPRGridEnv.step, if_neg hne]
  · intro env actions rng hlen hmem
    have hmv2 : (movesPhase env actions).2 =
        .error "AssertionError: The given action must be an instance of AgentAction" := by
      unfold movesPhase
      exact movesGo_invalid actions 0 env
        (List.replicate env.n_agents (-RESOURCE_COLLECTION_REWARD)) (by omega) hmem
    rcases hmv : movesPhase env actions with ⟨env1, res1⟩
    rw [hmv] at hmv2
    simp only at hmv2
    subst hmv2
    rw [step_moves_error env actions rng env1 _ hlen hmv]

/-- C10: a ROTATE_LEFT or ROTATE_RIGHT action targets the agent's own cell
with a new orientation; since that cell holds AGENT, `_is_position_occupied`
is true, the move is infeasible, and `_compute_new_agent_position` falls
back to the agent's current position with its *old* orientation — the whole
pose, orientation included, is unchanged. -/
theorem C10_rotation_noop (env : CPRGridEnv) (agent_handle : Nat)
    (h : agent_handle < env.n_agents)
    (hA : env.grid.get (env.agent_positions.getD agent_handle default).y
        (env.agent_positions.getD agent_handle default).x = GridCell.AGENT) :
    env.compute_new_agent_position agent_handle (.valid .ROTATE_LEFT) =
      .ok (env.agent_positions.getD agent_handle default) ∧
    env.compute_new_agent_position agent_handle (.valid .ROTATE_RIGHT) =
      .ok (env.agent_positions.getD agent_handle default) := by
  have hocc : ∀ o : AgentOrientation,
      env.is_move_feasible
        ⟨(env.agent_positions.getD agent_handle default).x,
         (env.agent_positions.getD agent_handle default).y, o⟩ = false := by
    intro o
    simp only [CPRGridEnv.is_move_feasible, CPRGridEnv.is_position_occupied, hA]
    simp
  constructor <;>
  · unfold CPRGridEnv.compute_new_agent_position
    rw [if_pos h]
    simp only [AgentPosition.get_new_position, AgentPosition.applyAction,
      AgentPosition.rotate_left, AgentPosition.rotate_right]
    rw [if_pos (hocc _)]

/-! ### Witnesses -/

/-- Witness for C4: in the spec scenario the move loop and observation
phase succeed, cell (0, 0) is still EMPTY, and `step` raises the respawn
TypeError. -/
theorem C4_witness :
    (env6c.step [PyAction.valid AgentAction.STEP_FORWARD] rng0).2 =
      .error "TypeError: tuple indices must be integers or slices, not tuple" :=
  C4_respawn_error env6c [PyAction.valid AgentAction.STEP_FORWARD] rng0 _ _ 0 0
    rfl rfl (by decide) (by decide) (by decide) (by decide)

/-- Witness for C6 at the spec scenario: the reward entry is the collection
reward because cell (1, 0) holds RESOURCE before the move is applied. -/
theorem C6_witness :
    [(1 : Int)] =
      (if env6c.grid.get 0 1 = GridCell.RESOURCE then
        List.set [(-1 : Int)] 0 RESOURCE_COLLECTION_REWARD
      else [(-1 : Int)]) :=
  C6_reward_rule.1 env6c 0 (PyAction.valid AgentAction.STEP_FORWARD) [(-1 : Int)]
    ⟨1, 0, AgentOrientation.UP⟩ _ [(1 : Int)] rfl rfl

/-- Witness for C7: the agent at (0, 0) facing LEFT keeps its pose on
STEP_FORWARD. -/
theorem C7_witness :
    env7c.compute_new_agent_position 0 (PyAction.valid AgentAction.STEP_FORWARD) =
      .ok (env7c.agent_positions.getD 0 default) :=
  C7_infeasible_stand_still.1 env7c 0 AgentAction.STEP_FORWARD (by decide) (by decide)

/-- Witness for C8: a returning step call advances the elapsed counter. -/
theorem C8_witness :
    (env8c.step [PyAction.valid AgentAction.STAND_STILL] rng0).1.elapsed_steps =
      env8c.elapsed_steps + 1 :=
  (C8_termination env8c [PyAction.valid AgentAction.STAND_STILL] rng0 _ _ _ rfl).1

/-- Witness for C9: an empty actions list against two agents is rejected
with the state unchanged. -/
theorem C9_witness :
    env9c.step [] rng0 = (env9c,
      .error "AssertionError: Actions should be given as a list with lenght equal to the number of agents") :=
  C9_amended.1 env9c [] rng0 (by decide)

/-- Witness for C10: a concrete agent whose cell is marked AGENT keeps its
full pose under both rotation actions. -/
theorem C10_witness :
    env1c.compute_new_agent_position 0 (PyAction.valid AgentAction.ROTATE_LEFT) =
      .ok (env1c.agent_positions.getD 0 default) ∧
    env1c.compute_new_agent_position 0 (PyAction.valid AgentAction.ROTATE_RIGHT) =
      .ok (env1c.agent_positions.getD 0 default) :=
  C10_rotation_noop env1c 0 (by decide) (by decide)

end CPRGrid
